import Mathlib

/-!
Verification of the tileyolo tile server's core pipeline against its
natural-language specification.

The embedding follows the Rust sources:
 * `src/reader/local.rs`   : catalogue filter, `get_tile` colourisation, `tile_bounds`
 * `src/reader/cog.rs`     : `process_cog` colourisation (same pixel logic)
 * `src/reader/mod.rs` and `src/models/layer.rs` : `LayerGeometry::project`
 * `src/geometry/projection.rs` and `src/utils/geometry.rs` : Mercator conversions
 * `src/reader/metadata.rs` : `LayerMetadata` round trip
 * `src/endpoints/handlers.rs` : `tile_handler`

Modelling conventions: `f32`/`f64` sample values flowing through the
colourisation code are modelled as `F32` (an explicit NaN plus exact
rationals), so IEEE `NaN` comparison semantics are preserved where the code
relies on them; coordinate arithmetic that is pure field arithmetic is
modelled over `ℚ`; the transcendental Mercator formulas are modelled over
`ℝ`. The external GDAL/proj/colorgrad libraries appear only at their call
boundaries, as function parameters.
-/

/-- A sample value of the warped raster band: IEEE `f32` restricted to the
operations the renderer performs (NaN test, equality, field arithmetic). -/
inductive F32 where
  | nan : F32
  | num : ℚ → F32
deriving DecidableEq, Repr

/-- `f32::is_nan`. -/
def F32.isNan : F32 → Bool
  | .nan => true
  | .num _ => false

/-- IEEE equality on samples: `NaN` is equal to nothing (Rust `==` on `f32`). -/
def f32Eq : F32 → F32 → Bool
  | .num a, .num b => a == b
  | _, _ => false

/-- `src/reader/local.rs` line 366 (and `cog.rs` line 71):
`|raw| raw.is_nan() || nodata_opt.map(|nd| raw == nd).unwrap_or(false)`. -/
def isNodata (nodataOpt : Option F32) (raw : F32) : Bool :=
  raw.isNan || (nodataOpt.map (fun nd => f32Eq raw nd)).getD false

/-- A colour stop parsed from `style.txt` (`src/reader/mod.rs`). -/
structure ColourStop where
  value : ℚ
  red : ℕ
  green : ℕ
  blue : ℕ
  alpha : ℕ
deriving DecidableEq, Repr

/-- An RGBA8 pixel. -/
structure RGBA where
  r : ℕ
  g : ℕ
  b : ℕ
  a : ℕ
deriving DecidableEq, Repr

/-- Rust `f32::clamp(lo, hi)`: `if self < lo { lo } else if self > hi { hi }
else { self }` (on a non-NaN value). -/
def clampQ (x lo hi : ℚ) : ℚ :=
  if x < lo then lo else if x > hi then hi else x

/-- Rust `as u8` cast from a (non-NaN) float: saturating truncation. -/
def toU8 (q : ℚ) : ℕ :=
  if q < 0 then 0 else if 255 < q then 255 else (⌊q⌋).toNat

/-- `is_builtin_palette` (`src/reader/local.rs` lines 15-28,
`src/utils/style.rs`, `src/reader/style.rs`). -/
def isBuiltinPalette (name : String) : Bool :=
  name == "viridis" || name == "magma" || name == "plasma" ||
  name == "inferno" || name == "turbo" || name == "cubehelix_default" ||
  name == "rainbow" || name == "spectral" || name == "sinebow"

/-- Axis-aligned extent in the units of a CRS (`GeometryExtent`,
`src/models/geometry.rs` / `src/reader/mod.rs`). -/
structure GeometryExtent where
  minx : ℝ
  miny : ℝ
  maxx : ℝ
  maxy : ℝ

/-- `LayerGeometry` (`src/models/layer.rs` / `src/reader/mod.rs`). -/
structure LayerGeometry where
  crs_code : ℤ
  extent : GeometryExtent

/-- The parts of a filesystem path the catalogue logic inspects: the name of
the immediate parent directory, when it exists. -/
structure FsPath where
  parentDir : Option String
deriving DecidableEq, Repr

/-- `Layer` (`src/models/layer.rs` / `src/reader/mod.rs`). `min_value` and
`max_value` are exact raster statistics; `last_modified` is seconds relative
to the Unix epoch. -/
structure Layer where
  layer : String
  style : String
  path : FsPath
  size_bytes : ℕ
  source_geometry : LayerGeometry
  cached_geometry : List (ℤ × LayerGeometry)
  colour_stops : List ColourStop
  min_value : ℚ
  max_value : ℚ
  is_cog : Bool
  last_modified : ℚ

/-- The segment search of the custom-stop branch
(`src/reader/local.rs` lines 409-421, `src/reader/cog.rs` lines 122-134):
walk `windows(2)` in order, interpolate in the first window containing
`scaled`, default to fully transparent. -/
def lerpStop (a b : ColourStop) (scaled : ℚ) : RGBA :=
  let t := (scaled - a.value) / (b.value - a.value)
  ⟨toU8 ((1 - t) * (a.red : ℚ) + t * (b.red : ℚ)),
   toU8 ((1 - t) * (a.green : ℚ) + t * (b.green : ℚ)),
   toU8 ((1 - t) * (a.blue : ℚ) + t * (b.blue : ℚ)),
   toU8 ((1 - t) * (a.alpha : ℚ) + t * (b.alpha : ℚ))⟩

/-- First matching adjacent pair of the stop list, as in the source's
`for w in cs.windows(2) { ... break; }` with default `Rgba([0,0,0,0])`. -/
def findSeg : List ColourStop → ℚ → RGBA
  | a :: b :: rest, scaled =>
    if a.value ≤ scaled ∧ scaled ≤ b.value then lerpStop a b scaled
    else findSeg (b :: rest) scaled
  | _, _ => ⟨0, 0, 0, 0⟩

/-- One pixel of the colourisation step (`src/reader/local.rs` lines 363-426,
`src/reader/cog.rs` lines 78-141). `grad` stands for the colorgrad built-in
gradient sampler `|t| grad.at(t).to_rgba8()` selected for the layer's style;
it is only consulted on the built-in-palette branch. -/
def renderPixel (grad : ℚ → RGBA) (layer : Layer) (nodataOpt : Option F32)
    (raw : F32) : RGBA :=
  if isNodata nodataOpt raw then ⟨0, 0, 0, 0⟩
  else
    match raw with
    | .nan => ⟨0, 0, 0, 0⟩
    | .num v =>
      if isBuiltinPalette layer.style then
        grad (clampQ ((v - layer.min_value) / (layer.max_value - layer.min_value)) 0 1)
      else if layer.colour_stops.isEmpty then
        let norm := (v - layer.min_value) / (layer.max_value - layer.min_value)
        let lum := toU8 (clampQ norm 0 1 * 255)
        ⟨lum, lum, lum, 255⟩
      else
        let cs := layer.colour_stops
        let style_min := ((cs.head?).map ColourStop.value).getD 0
        let style_max := ((cs.getLast?).map ColourStop.value).getD 0
        let norm := (v - layer.min_value) / (layer.max_value - layer.min_value)
        let scaled := style_min + clampQ norm 0 1 * (style_max - style_min)
        findSeg cs scaled

/-- The assembled 256×256 tile image: `img.put_pixel((i % 256), (i / 256), px)`
over the enumerated buffer, i.e. pixel `(px, py)` is the colourisation of
buffer cell `py * 256 + px`. The warped band buffer is modelled as a total
index function. -/
def renderTile (grad : ℚ → RGBA) (layer : Layer) (nodataOpt : Option F32)
    (buffer : ℕ → F32) (px py : ℕ) : RGBA :=
  renderPixel grad layer nodataOpt (buffer (py * 256 + px))

/-- The Web-Mercator half-extent constant `20037508.342789244` used by
`tile_bounds`. -/
def webMercMax : ℚ := 20037508.342789244

/-- `tile_bounds` (`src/reader/local.rs` lines 440-449), returning
`(minx, miny, maxx, maxy)` in EPSG:3857. -/
def tile_bounds (z x y : ℕ) : ℚ × ℚ × ℚ × ℚ :=
  let tile_size : ℚ := 256
  let initial_resolution := 2 * webMercMax / tile_size
  let res := initial_resolution / 2 ^ z
  ((x : ℚ) * tile_size * res - webMercMax,
   webMercMax - ((y : ℚ) + 1) * tile_size * res,
   ((x : ℚ) + 1) * tile_size * res - webMercMax,
   webMercMax - (y : ℚ) * tile_size * res)

/-- The characters after the last `.` of a character list, when a `.`
occurs in it. -/
def afterLastDot : List Char → Option (List Char)
  | [] => none
  | c :: rest =>
    match afterLastDot rest with
    | some e => some e
    | none => if c = '.' then some rest else none

/-- Rust `Path::extension()` on a file name: the portion after the last `.`,
none when there is no `.` after the first character (so a leading-dot
hidden file with no further dot has no extension). -/
def fileExtension (name : String) : Option (List Char) :=
  match name.toList with
  | [] => none
  | _ :: rest => afterLastDot rest

/-- ASCII lowercasing of one character. -/
def lowerAscii (c : Char) : Char :=
  if 'A' ≤ c ∧ c ≤ 'Z' then Char.ofNat (c.toNat + 32) else c

/-- Rust `str::eq_ignore_ascii_case`. -/
def eqIgnoreAsciiCase (a b : List Char) : Bool :=
  a.map lowerAscii == b.map lowerAscii

/-- The catalogue builder's file filter (`src/reader/local.rs` lines 50-63):
`WalkDir::min_depth(2)` plus
`ext.eq_ignore_ascii_case("tif") || ext.eq_ignore_ascii_case("tiff")`.
`depth` is the WalkDir depth of the entry below the data root. -/
def walkSelect (depth : ℕ) (name : String) : Bool :=
  decide (2 ≤ depth) &&
    (match fileExtension name with
     | some e => eqIgnoreAsciiCase e "tif".toList || eqIgnoreAsciiCase e "tiff".toList
     | none => false)

/-- WGS84 semi-major axis, `R_MAJOR` in `src/geometry/projection.rs` and
`src/utils/geometry.rs`. -/
noncomputable def rMajor : ℝ := 6378137

/-- `MAX_LAT` in `src/geometry/projection.rs`. -/
noncomputable def maxLatR : ℝ := 85.05112877980659

/-- Rust `f64::clamp(lo, hi)` on a non-NaN value. -/
noncomputable def clampR (x lo hi : ℝ) : ℝ :=
  if x < lo then lo else if x > hi then hi else x

/-- `lon_lat_to_mercator` of `src/geometry/projection.rs` (lines 8-16): the
latitude is clamped into Mercator range before the transcendental formula. -/
noncomputable def lon_lat_to_mercator (lon lat : ℝ) : ℝ × ℝ :=
  let clamped_lat := clampR lat (-maxLatR) maxLatR
  let x := lon * rMajor * Real.pi / 180
  let lat_rad := clamped_lat * Real.pi / 180
  let y := rMajor * Real.log (Real.tan (Real.pi / 4 + lat_rad / 2))
  (x, y)

/-- `lon_lat_to_mercator` of `src/utils/geometry.rs` (lines 7-12): the same
formula with no latitude clamp. -/
noncomputable def utils_lon_lat_to_mercator (lon lat : ℝ) : ℝ × ℝ :=
  let x := lon * rMajor * Real.pi / 180
  let lat_rad := lat * Real.pi / 180
  let y := rMajor * Real.log (Real.tan (Real.pi / 4 + lat_rad / 2))
  (x, y)

/-- `mercator_to_lon_lat` (identical in both variants). -/
noncomputable def mercator_to_lon_lat (x y : ℝ) : ℝ × ℝ :=
  let lon := x / (rMajor * Real.pi / 180)
  let lat_rad := 2 * Real.arctan (Real.exp (y / rMajor)) - Real.pi / 2
  let lat := lat_rad * 180 / Real.pi
  (lon, lat)

/-- Outcome of `LayerGeometry::project`: an `anyhow::Result` value, or a
panic (the `.unwrap()` on `Proj::new_known_crs`). -/
inductive ProjResult where
  | ok : LayerGeometry → ProjResult
  | err : String → ProjResult
  | panicked : ProjResult

/-- `LayerGeometry::project` (`src/models/layer.rs` lines 29-70, likewise
`src/reader/mod.rs` lines 67-108). `mkProj` models `Proj::new_known_crs`
for a source/target EPSG pair (`none` = construction failure, which the
source `.unwrap()`s), and the returned conversion models `Proj::convert` on
one corner (`Except.error` = conversion failure, mapped into the `Result`). -/
noncomputable def LayerGeometry.project
    (mkProj : ℤ → ℤ → Option (ℝ × ℝ → Except String (ℝ × ℝ)))
    (g : LayerGeometry) (target_crs : ℤ) : ProjResult :=
  if g.crs_code = target_crs then .ok g
  else if g.crs_code = 4326 ∧ target_crs = 3857 then
    let (minx, miny) := lon_lat_to_mercator g.extent.minx g.extent.miny
    let (maxx, maxy) := lon_lat_to_mercator g.extent.maxx g.extent.maxy
    .ok ⟨target_crs, ⟨minx, miny, maxx, maxy⟩⟩
  else if g.crs_code = 3857 ∧ target_crs = 4326 then
    let (minx, miny) := mercator_to_lon_lat g.extent.minx g.extent.miny
    let (maxx, maxy) := mercator_to_lon_lat g.extent.maxx g.extent.maxy
    .ok ⟨target_crs, ⟨minx, miny, maxx, maxy⟩⟩
  else
    match mkProj g.crs_code target_crs with
    | none => .panicked
    | some conv =>
      match conv (g.extent.minx, g.extent.miny) with
      | .error e => .err e
      | .ok (minx, miny) =>
        match conv (g.extent.maxx, g.extent.maxy) with
        | .error e => .err e
        | .ok (maxx, maxy) => .ok ⟨target_crs, ⟨minx, miny, maxx, maxy⟩⟩

/-- The on-disk metadata record (`src/reader/metadata.rs` lines 16-31). -/
structure LayerMetadata where
  layer : String
  size_bytes : ℕ
  last_modified : ℕ
  crs_code : ℤ
  min_value : ℚ
  max_value : ℚ
  is_cog : Bool
  extent_minx : ℝ
  extent_miny : ℝ
  extent_maxx : ℝ
  extent_maxy : ℝ

/-- `SystemTime::duration_since(UNIX_EPOCH).unwrap_or_default().as_secs()`
on a timestamp given as rational seconds relative to the epoch: whole
seconds for a post-epoch time, `0` (the default duration) before the epoch. -/
def asSecsSinceEpoch (t : ℚ) : ℕ :=
  if 0 ≤ t then (⌊t⌋).toNat else 0

/-- `LayerMetadata::from_layer` (`src/reader/metadata.rs` lines 35-55). -/
def LayerMetadata.from_layer (l : Layer) : LayerMetadata :=
  { layer := l.layer
    size_bytes := l.size_bytes
    last_modified := asSecsSinceEpoch l.last_modified
    crs_code := l.source_geometry.crs_code
    min_value := l.min_value
    max_value := l.max_value
    is_cog := l.is_cog
    extent_minx := l.source_geometry.extent.minx
    extent_miny := l.source_geometry.extent.miny
    extent_maxx := l.source_geometry.extent.maxx
    extent_maxy := l.source_geometry.extent.maxy }

/-- `LayerMetadata::to_layer` (`src/reader/metadata.rs` lines 58-96).
`stopsOf` models `parse_style_file(parent.join("style.txt")).unwrap_or_default()`,
the live re-read of colour stops from the file system. -/
def LayerMetadata.to_layer (m : LayerMetadata) (path : FsPath)
    (stopsOf : FsPath → List ColourStop) : Layer :=
  let style_name := path.parentDir.getD "default"
  let colour_stops := if isBuiltinPalette style_name then [] else stopsOf path
  { layer := m.layer
    style := style_name
    path := path
    size_bytes := m.size_bytes
    source_geometry :=
      ⟨m.crs_code, ⟨m.extent_minx, m.extent_miny, m.extent_maxx, m.extent_maxy⟩⟩
    cached_geometry := []
    colour_stops := colour_stops
    min_value := m.min_value
    max_value := m.max_value
    is_cog := m.is_cog
    last_modified := (m.last_modified : ℚ) }

/-- `TileResponse` (`src/reader/mod.rs` lines 11-14). -/
structure TileResponse where
  bytes : List ℕ
  content_type : String

/-- The error text `format!("Layer not found: '{}'", layer)`. -/
def layerNotFoundMsg (layer : String) : String :=
  "Layer not found: " ++ String.singleton (Char.ofNat 39) ++ layer ++
    String.singleton (Char.ofNat 39)

/-- The layer-selection prefix of `LocalTileReader::get_tile`
(`src/reader/local.rs` lines 298-311): look the name up in the catalogue,
take the first entry of its style list, ignore the `_style` argument; the
selected `Layer` is the one subsequently rendered. -/
def get_tile_select (layers : List (String × List Layer)) (layer : String)
    (_style : Option String) : Except String Layer :=
  match (layers.lookup layer).bind List.head? with
  | some l => .ok l
  | none => .error (layerNotFoundMsg layer)

/-- An HTTP response at the boundary modelled by `tile_handler`. -/
structure HttpResp where
  status : ℕ
  body : List ℕ ⊕ String
  contentType : Option String

/-- `tile_handler` (`src/endpoints/handlers.rs` lines 23-35): a successful
tile becomes a 200 with the PNG bytes and content type, an error string
becomes `(StatusCode::NOT_FOUND, e)`. -/
def tile_handler (r : Except String TileResponse) : HttpResp :=
  match r with
  | .ok tile => ⟨200, .inl tile.bytes, some tile.content_type⟩
  | .error e => ⟨404, .inr e, none⟩

/-- Modelled from the spec: the render path of the current
`LocalTileReader::get_tile` is absent from the sources (only historical
variants and its caller `src/endpoints/server.rs` are present), so the
"pixel centre" of step 5 of the renderer algorithm is taken from the spec:
`(gx, gy) = (minx + x·res_x, maxy − y·res_y)` with
`res_x = (maxx−minx)/W`, `res_y = (maxy−miny)/H` for `W = H = 256`. -/
def specPixelCentre (bounds : ℚ × ℚ × ℚ × ℚ) (px py : ℕ) : ℚ × ℚ :=
  let (minx, miny, maxx, maxy) := bounds
  let res_x := (maxx - minx) / 256
  let res_y := (maxy - miny) / 256
  (minx + (px : ℚ) * res_x, maxy - (py : ℚ) * res_y)

/-- Modelled from the spec: membership of a point in the valid data
envelope, the axis-aligned bounding box of the layer extent reprojected
into EPSG:3857. -/
def specEnvelopeContains (env : ℚ × ℚ × ℚ × ℚ) (p : ℚ × ℚ) : Bool :=
  let (minx, miny, maxx, maxy) := env
  decide (minx ≤ p.1) && decide (p.1 ≤ maxx) &&
  decide (miny ≤ p.2) && decide (p.2 ≤ maxy)

section Helpers

/-- `clampQ` stays above the lower bound. -/
theorem clampQ_lower (x lo hi : ℚ) (h : lo ≤ hi) : lo ≤ clampQ x lo hi := by
  unfold clampQ
  split_ifs <;> linarith

/-- `clampQ` stays below the upper bound. -/
theorem clampQ_upper (x lo hi : ℚ) (h : lo ≤ hi) : clampQ x lo hi ≤ hi := by
  unfold clampQ
  split_ifs <;> linarith

/-- `toU8` of the exact value `255`. -/
theorem toU8_255 : toU8 255 = 255 := by
  norm_num [toU8]
  rfl

/-- Interpolating between two stops of alpha `255` yields alpha `255`,
whatever the interpolation parameter. -/
theorem lerpStop_alpha_255 (a b : ColourStop) (scaled : ℚ)
    (ha : a.alpha = 255) (hb : b.alpha = 255) : (lerpStop a b scaled).a = 255 := by
  have h : (1 - (scaled - a.value) / (b.value - a.value)) * ((255 : ℕ) : ℚ) +
      (scaled - a.value) / (b.value - a.value) * ((255 : ℕ) : ℚ) = 255 := by
    push_cast
    ring
  simp only [lerpStop, ha, hb]
  rw [h, toU8_255]

/-- In a `<`-chained stop list the head value bounds the last value. -/
theorem chain_head_le_getLast (l : List ColourStop) (a : ColourStop)
    (h : List.Chain' (fun s t : ColourStop => s.value < t.value) (a :: l)) :
    a.value ≤ ((a :: l).getLast (List.cons_ne_nil a l)).value := by
  induction l generalizing a with
  | nil => simp
  | cons c l ih =>
    have h1 : a.value < c.value := (List.chain'_cons.mp h).1
    have h2 := ih c (List.chain'_cons.mp h).2
    rw [List.getLast_cons (List.cons_ne_nil c l)]
    exact le_trans (le_of_lt h1) h2

/-- If `scaled` lies between the first and the last stop value of a sorted
list of fully opaque stops, the segment search lands in some window and the
interpolated alpha is `255`. -/
theorem findSeg_alpha_255 (rest : List ColourStop) (a b : ColourStop) (scaled : ℚ)
    (halpha : ∀ s ∈ a :: b :: rest, s.alpha = 255)
    (hchain : List.Chain' (fun s t : ColourStop => s.value < t.value) (a :: b :: rest))
    (hlo : a.value ≤ scaled)
    (hhi : scaled ≤ ((a :: b :: rest).getLast (List.cons_ne_nil _ _)).value) :
    (findSeg (a :: b :: rest) scaled).a = 255 := by
  induction rest generalizing a b with
  | nil =>
    have hb : scaled ≤ b.value := by simpa using hhi
    rw [findSeg, if_pos ⟨hlo, hb⟩]
    exact lerpStop_alpha_255 a b scaled (halpha a (by simp)) (halpha b (by simp))
  | cons c rest ih =>
    by_cases hw : a.value ≤ scaled ∧ scaled ≤ b.value
    · rw [findSeg, if_pos hw]
      exact lerpStop_alpha_255 a b scaled (halpha a (by simp)) (halpha b (by simp))
    · have hlt : b.value < scaled := by
        rcases lt_or_le b.value scaled with h | h
        · exact h
        · exact absurd ⟨hlo, h⟩ hw
      rw [findSeg, if_neg hw]
      refine ih b c (fun s hs => halpha s (List.mem_cons_of_mem a hs))
        (List.chain'_cons.mp hchain).2 (le_of_lt hlt) ?_
      have := hhi
      rwa [List.getLast_cons (List.cons_ne_nil b (c :: rest))] at this

end Helpers

/-- **C2.** `tile_bounds` returns exactly the slippy-tile Mercator bounds
`(minx, miny, maxx, maxy)` with `res = (2·20037508.342789244/256)/2^z`;
tile `(0,0,0)` is the full Mercator square and the four `z = 1` tiles
partition it exactly into its four quadrants. -/
theorem tile_bounds_formula_and_partition (z x y : ℕ) (hz : z ≤ 24)
    (hx : x < 2 ^ z) (hy : y < 2 ^ z) :
    tile_bounds z x y =
      ((x : ℚ) * 256 * (2 * webMercMax / 256 / 2 ^ z) - webMercMax,
       webMercMax - ((y : ℚ) + 1) * 256 * (2 * webMercMax / 256 / 2 ^ z),
       ((x : ℚ) + 1) * 256 * (2 * webMercMax / 256 / 2 ^ z) - webMercMax,
       webMercMax - (y : ℚ) * 256 * (2 * webMercMax / 256 / 2 ^ z)) ∧
    tile_bounds 0 0 0 = (-webMercMax, -webMercMax, webMercMax, webMercMax) ∧
    tile_bounds 1 0 0 = (-webMercMax, 0, 0, webMercMax) ∧
    tile_bounds 1 1 0 = (0, 0, webMercMax, webMercMax) ∧
    tile_bounds 1 0 1 = (-webMercMax, -webMercMax, 0, 0) ∧
    tile_bounds 1 1 1 = (0, -webMercMax, webMercMax, 0) := by
  refine ⟨rfl, ?_, ?_, ?_, ?_, ?_⟩ <;> norm_num [tile_bounds, webMercMax]

/-- Witness for C2 at `z = 2`, `x = 1`, `y = 3`. -/
theorem tile_bounds_formula_and_partition_witness :
    tile_bounds 2 1 3 =
      (((1 : ℕ) : ℚ) * 256 * (2 * webMercMax / 256 / 2 ^ 2) - webMercMax,
       webMercMax - (((3 : ℕ) : ℚ) + 1) * 256 * (2 * webMercMax / 256 / 2 ^ 2),
       (((1 : ℕ) : ℚ) + 1) * 256 * (2 * webMercMax / 256 / 2 ^ 2) - webMercMax,
       webMercMax - ((3 : ℕ) : ℚ) * 256 * (2 * webMercMax / 256 / 2 ^ 2)) :=
  (tile_bounds_formula_and_partition 2 1 3 (by decide) (by decide) (by decide)).1

/-- **C8 (amended).** The catalogue builder selects exactly the files at
WalkDir depth at least 2 whose extension is, ASCII-case-insensitively,
`tif` or `tiff`; `geotiff`/`geotif` and files directly under the root are
never selected. -/
theorem walkSelect_iff (d : ℕ) (name : String) :
    walkSelect d name = true ↔
      2 ≤ d ∧ ∃ e, fileExtension name = some e ∧
        (eqIgnoreAsciiCase e "tif".toList = true ∨
         eqIgnoreAsciiCase e "tiff".toList = true) := by
  unfold walkSelect
  cases h : fileExtension name with
  | none => simp [h]
  | some e => simp [h, Bool.and_eq_true, Bool.or_eq_true, decide_eq_true_eq, and_assoc]

/-- **C8 counterexample.** A file named `layer.geotiff` at depth 2 is not
selected by the catalogue filter, although the claim says the `geotiff`
extension is accepted. -/
theorem walkSelect_rejects_geotiff : walkSelect 2 "layer.geotiff" = false := by
  decide

/-- **C9 (amended).** Reconstituting a layer's on-disk metadata record —
`LayerMetadata::from_layer` followed by `to_layer` on the layer's own path —
preserves the layer name, `size_bytes`, source CRS code, the four extent
components, `min_value`, `max_value` and `is_cog`, and the style name is
the path's parent folder name; the reconstituted `last_modified` is the
original truncated to whole seconds when the timestamp is at or after the
Unix epoch, but collapses to `0` for a pre-epoch timestamp (the
`duration_since(UNIX_EPOCH).unwrap_or_default()` default). -/
theorem metadata_roundtrip (l : Layer) (stopsOf : FsPath → List ColourStop) :
    ((LayerMetadata.from_layer l).to_layer l.path stopsOf).layer = l.layer ∧
    ((LayerMetadata.from_layer l).to_layer l.path stopsOf).size_bytes = l.size_bytes ∧
    ((LayerMetadata.from_layer l).to_layer l.path stopsOf).source_geometry.crs_code
      = l.source_geometry.crs_code ∧
    ((LayerMetadata.from_layer l).to_layer l.path stopsOf).source_geometry.extent.minx
      = l.source_geometry.extent.minx ∧
    ((LayerMetadata.from_layer l).to_layer l.path stopsOf).source_geometry.extent.miny
      = l.source_geometry.extent.miny ∧
    ((LayerMetadata.from_layer l).to_layer l.path stopsOf).source_geometry.extent.maxx
      = l.source_geometry.extent.maxx ∧
    ((LayerMetadata.from_layer l).to_layer l.path stopsOf).source_geometry.extent.maxy
      = l.source_geometry.extent.maxy ∧
    ((LayerMetadata.from_layer l).to_layer l.path stopsOf).min_value = l.min_value ∧
    ((LayerMetadata.from_layer l).to_layer l.path stopsOf).max_value = l.max_value ∧
    ((LayerMetadata.from_layer l).to_layer l.path stopsOf).is_cog = l.is_cog ∧
    ((LayerMetadata.from_layer l).to_layer l.path stopsOf).last_modified
      = (if 0 ≤ l.last_modified then ((⌊l.last_modified⌋ : ℤ) : ℚ) else 0) ∧
    (∀ s, l.path.parentDir = some s →
      ((LayerMetadata.from_layer l).to_layer l.path stopsOf).style = s) := by
  unfold LayerMetadata.from_layer LayerMetadata.to_layer asSecsSinceEpoch
  refine ⟨rfl, rfl, rfl, rfl, rfl, rfl, rfl, rfl, rfl, rfl, ?_, ?_⟩
  · by_cases ht : 0 ≤ l.last_modified
    · have h1 : ((⌊l.last_modified⌋.toNat : ℤ)) = ⌊l.last_modified⌋ :=
        Int.toNat_of_nonneg (Int.floor_nonneg.mpr ht)
      simp only [if_pos ht]
      exact_mod_cast congrArg (fun z : ℤ => (z : ℚ)) h1
    · simp only [if_neg ht]
      norm_num
  · intro s hs
    simp [hs]

/-- An example layer for the metadata round-trip witness. -/
def exLayerMeta : Layer :=
  { layer := "alps", style := "viridis", path := ⟨some "viridis"⟩,
    size_bytes := 42, source_geometry := ⟨4326, ⟨5, 45, 11, 48⟩⟩,
    cached_geometry := [], colour_stops := [], min_value := 0, max_value := 9,
    is_cog := true, last_modified := 0 }

/-- Witness for C9 on a concrete layer, exercising the name and style
components (the latter discharges the parent-folder hypothesis at a
concrete path). -/
theorem metadata_roundtrip_witness :
    ((LayerMetadata.from_layer exLayerMeta).to_layer exLayerMeta.path
        (fun _ => [])).layer = exLayerMeta.layer ∧
    ((LayerMetadata.from_layer exLayerMeta).to_layer exLayerMeta.path
        (fun _ => [])).style = "viridis" :=
  ⟨(metadata_roundtrip exLayerMeta (fun _ => [])).1,
   (metadata_roundtrip exLayerMeta
      (fun _ => [])).2.2.2.2.2.2.2.2.2.2.2 "viridis" rfl⟩

/-- An example layer whose timestamp precedes the Unix epoch. -/
def exLayerPreEpoch : Layer :=
  { layer := "old", style := "viridis", path := ⟨some "viridis"⟩,
    size_bytes := 1, source_geometry := ⟨4326, ⟨0, 0, 1, 1⟩⟩,
    cached_geometry := [], colour_stops := [], min_value := 0, max_value := 1,
    is_cog := false, last_modified := -5 }

/-- **C9 counterexample.** A layer whose `last_modified` is 5 seconds
before the Unix epoch round-trips to the timestamp `0`, not to its value
truncated to whole seconds (`-5`): `duration_since(UNIX_EPOCH)` fails and
`unwrap_or_default()` substitutes the zero duration. -/
theorem metadata_roundtrip_pre_epoch :
    ((LayerMetadata.from_layer exLayerPreEpoch).to_layer exLayerPreEpoch.path
        (fun _ => [])).last_modified
      ≠ ((⌊exLayerPreEpoch.last_modified⌋ : ℤ) : ℚ) ∧
    ((LayerMetadata.from_layer exLayerPreEpoch).to_layer exLayerPreEpoch.path
        (fun _ => [])).last_modified = 0 ∧
    ((⌊exLayerPreEpoch.last_modified⌋ : ℤ) : ℚ) = -5 := by
  refine ⟨?_, ?_, ?_⟩
  · norm_num [LayerMetadata.from_layer, LayerMetadata.to_layer, asSecsSinceEpoch,
      exLayerPreEpoch]
  · norm_num [LayerMetadata.from_layer, LayerMetadata.to_layer, asSecsSinceEpoch,
      exLayerPreEpoch]
  · norm_num [exLayerPreEpoch]

/-- **C10.** For a layer whose style is not a built-in palette and whose
colour-stop list has exactly one stop, every pixel of the rendered tile is
fully transparent `(0,0,0,0)` regardless of the sample values: a single
stop yields no adjacent stop pair, so the segment search always returns the
default transparent colour. -/
theorem singleStop_renders_transparent (grad : ℚ → RGBA) (layer : Layer)
    (nodataOpt : Option F32) (buffer : ℕ → F32) (s : ColourStop)
    (hstyle : isBuiltinPalette layer.style = false)
    (hstops : layer.colour_stops = [s]) (px py : ℕ) :
    renderTile grad layer nodataOpt buffer px py = ⟨0, 0, 0, 0⟩ := by
  unfold renderTile renderPixel
  by_cases hnd : isNodata nodataOpt (buffer (py * 256 + px)) = true
  · rw [if_pos hnd]
  · rw [if_neg hnd]
    cases hraw : buffer (py * 256 + px) with
    | nan => rfl
    | num v => simp [hstyle, hstops, findSeg]

/-- An example single-stop layer. -/
def exLayerSingle : Layer :=
  { layer := "one", style := "mystyle", path := ⟨some "mystyle"⟩,
    size_bytes := 0, source_geometry := ⟨3857, ⟨0, 0, 1, 1⟩⟩,
    cached_geometry := [], colour_stops := [⟨10, 1, 2, 3, 255⟩],
    min_value := 0, max_value := 20, is_cog := false, last_modified := 0 }

/-- Witness for C10 on a concrete single-stop layer, buffer and pixel. -/
theorem singleStop_renders_transparent_witness :
    renderTile (fun _ => ⟨0, 0, 0, 255⟩) exLayerSingle none (fun _ => F32.num 7) 3 5
      = ⟨0, 0, 0, 0⟩ :=
  singleStop_renders_transparent (fun _ => ⟨0, 0, 0, 255⟩) exLayerSingle none
    (fun _ => F32.num 7) ⟨10, 1, 2, 3, 255⟩ (by decide) rfl 3 5

/-- A successful association-list lookup (the model of the catalogue
`HashMap` access) comes from an actual entry. -/
theorem lookup_mem {α β : Type} [BEq α] [LawfulBEq α] {l : List (α × β)}
    {a : α} {b : β} (h : List.lookup a l = some b) : (a, b) ∈ l := by
  induction l with
  | nil => simp [List.lookup] at h
  | cons p l ih =>
    obtain ⟨k, v⟩ := p
    by_cases hk : a == k
    · simp only [List.lookup, hk] at h
      obtain rfl : v = b := by simpa using h
      obtain rfl : a = k := eq_of_beq hk
      exact List.mem_cons_self _ _
    · simp only [List.lookup, Bool.not_eq_true] at h
      rw [Bool.eq_false_iff.mpr hk] at h
      exact List.mem_cons_of_mem _ (ih h)

/-- **C6 (amended).** `get_tile` fails with `Layer not found: '<layer>'`
(surfaced by `tile_handler` as a 404 whose text body is that error) exactly
when the catalogue has no entry under the requested name; otherwise the
first entry under that name is rendered — the `style` selector is accepted
but ignored. -/
theorem get_tile_select_spec (layers : List (String × List Layer))
    (name : String) (style : Option String)
    (hne : ∀ p ∈ layers, p.2 ≠ []) :
    ((∃ e, get_tile_select layers name style = .error e) ↔
        List.lookup name layers = none) ∧
    (List.lookup name layers = none →
        get_tile_select layers name style = .error (layerNotFoundMsg name)) ∧
    (∀ l rest, List.lookup name layers = some (l :: rest) →
        get_tile_select layers name style = .ok l) ∧
    (∀ e, tile_handler (.error e) = ⟨404, .inr e, none⟩) ∧
    (∀ t, tile_handler (.ok t) = ⟨200, .inl t.bytes, some t.content_type⟩) := by
  refine ⟨⟨?_, ?_⟩, ?_, ?_, fun e => rfl, fun t => rfl⟩
  · rintro ⟨e, he⟩
    cases h : List.lookup name layers with
    | none => rfl
    | some ls =>
      cases ls with
      | nil => exact absurd rfl (hne _ (lookup_mem h))
      | cons l rest =>
        rw [get_tile_select, h] at he
        simp at he
  · intro h
    rw [get_tile_select, h]
    exact ⟨_, rfl⟩
  · intro h
    rw [get_tile_select, h]
    rfl
  · intro l rest h
    rw [get_tile_select, h]
    rfl

/-- First catalogued variant of the example layer `bar` (style folder `a`). -/
def exLayerA : Layer :=
  { layer := "bar", style := "a", path := ⟨some "a"⟩, size_bytes := 0,
    source_geometry := ⟨4326, ⟨0, 0, 1, 1⟩⟩, cached_geometry := [],
    colour_stops := [], min_value := 0, max_value := 1, is_cog := false,
    last_modified := 0 }

/-- Second catalogued variant of the example layer `bar` (style folder `b`). -/
def exLayerB : Layer :=
  { layer := "bar", style := "b", path := ⟨some "b"⟩, size_bytes := 0,
    source_geometry := ⟨4326, ⟨0, 0, 1, 1⟩⟩, cached_geometry := [],
    colour_stops := [], min_value := 0, max_value := 1, is_cog := false,
    last_modified := 0 }

/-- A catalogue holding two style variants of the layer `bar`. -/
def exCatalogue : List (String × List Layer) := [("bar", [exLayerA, exLayerB])]

/-- **C6 counterexample.** Requesting layer `bar` with style selector `b`
still selects the first entry, whose style folder is `a`: the selector is
ignored, contradicting the claim that the entry with the matching style is
rendered. -/
theorem get_tile_select_ignores_style :
    get_tile_select exCatalogue "bar" (some "b") = .ok exLayerA ∧
    exLayerA.style = "a" ∧ exLayerB.style = "b" := by
  exact ⟨rfl, rfl, rfl⟩

/-- Witness for C6 on the concrete catalogue. -/
theorem get_tile_select_spec_witness :
    ((∃ e, get_tile_select exCatalogue "missing" none = .error e) ↔
        List.lookup "missing" exCatalogue = none) ∧
    (List.lookup "missing" exCatalogue = none →
        get_tile_select exCatalogue "missing" none
          = .error (layerNotFoundMsg "missing")) ∧
    (∀ l rest, List.lookup "missing" exCatalogue = some (l :: rest) →
        get_tile_select exCatalogue "missing" none = .ok l) ∧
    (∀ e, tile_handler (.error e) = ⟨404, .inr e, none⟩) ∧
    (∀ t, tile_handler (.ok t) = ⟨200, .inl t.bytes, some t.content_type⟩) :=
  get_tile_select_spec exCatalogue "missing" none
    (by simp [exCatalogue])

/-- **C7 (amended).** `LayerGeometry::project` returns the geometry
unchanged when the target CRS equals the source CRS; outside the identity
and 4326↔3857 fast paths, a failing corner conversion of the generic
fallback yields the error value, but a fallback transform that cannot be
constructed makes the function panic (the `.unwrap()`), not return an
error. -/
theorem project_spec (mkProj : ℤ → ℤ → Option (ℝ × ℝ → Except String (ℝ × ℝ)))
    (g : LayerGeometry) (target : ℤ) :
    (g.crs_code = target → g.project mkProj target = .ok g) ∧
    (g.crs_code ≠ target →
     ¬(g.crs_code = 4326 ∧ target = 3857) →
     ¬(g.crs_code = 3857 ∧ target = 4326) →
      ((mkProj g.crs_code target = none → g.project mkProj target = .panicked) ∧
       (∀ conv e, mkProj g.crs_code target = some conv →
          conv (g.extent.minx, g.extent.miny) = .error e →
          g.project mkProj target = .err e) ∧
       (∀ conv p e, mkProj g.crs_code target = some conv →
          conv (g.extent.minx, g.extent.miny) = .ok p →
          conv (g.extent.maxx, g.extent.maxy) = .error e →
          g.project mkProj target = .err e))) := by
  constructor
  · intro h
    unfold LayerGeometry.project
    rw [if_pos h]
  · intro h1 h2 h3
    refine ⟨?_, ?_, ?_⟩
    · intro hmk
      unfold LayerGeometry.project
      rw [if_neg h1, if_neg h2, if_neg h3, hmk]
    · intro conv e hmk hc
      unfold LayerGeometry.project
      rw [if_neg h1, if_neg h2, if_neg h3, hmk]
      simp only [hc]
    · intro conv p e hmk hc1 hc2
      obtain ⟨cx, cy⟩ := p
      unfold LayerGeometry.project
      rw [if_neg h1, if_neg h2, if_neg h3, hmk]
      simp only [hc1, hc2]

/-- An example layer geometry in a CRS outside the fast paths. -/
def exGeomLV95 : LayerGeometry := ⟨2056, ⟨0, 0, 1, 1⟩⟩

/-- **C7 counterexample.** When the generic fallback transform cannot be
constructed (`Proj::new_known_crs` fails), `project` panics via `.unwrap()`
instead of returning a `ReprojectionFailed` error value. -/
theorem project_construction_failure_panics :
    exGeomLV95.project (fun _ _ => none) 21781 = .panicked := by
  norm_num [LayerGeometry.project, exGeomLV95]

/-- A fallback model whose corner conversion always fails. -/
def mkProjErr : ℤ → ℤ → Option (ℝ × ℝ → Except String (ℝ × ℝ)) :=
  fun _ _ => some (fun _ => .error "boom")

/-- Witness for C7: a failing corner conversion surfaces as the error
value. -/
theorem project_spec_witness :
    exGeomLV95.project mkProjErr 4326 = .err "boom" :=
  ((project_spec mkProjErr exGeomLV95 4326).2 (by decide) (by decide)
      (by decide)).2.1 (fun _ => .error "boom") "boom" rfl rfl

/-- **C4 (amended).** The `src/geometry/projection.rs` forward conversion
clamps latitude: for any `lat` at or beyond `±85.05112877980659` the result
equals exactly the conversion at the bound. (The `src/utils/geometry.rs`
variant applies no clamp; see its counterexample.) -/
theorem lon_lat_to_mercator_clamps (lon lat : ℝ) :
    (maxLatR ≤ lat → lon_lat_to_mercator lon lat = lon_lat_to_mercator lon maxLatR) ∧
    (lat ≤ -maxLatR →
      lon_lat_to_mercator lon lat = lon_lat_to_mercator lon (-maxLatR)) := by
  have hm : (0 : ℝ) < maxLatR := by norm_num [maxLatR]
  constructor
  · intro h
    have h1 : clampR lat (-maxLatR) maxLatR = maxLatR := by
      unfold clampR
      split_ifs with ha hb
      · linarith
      · rfl
      · linarith
    have h2 : clampR maxLatR (-maxLatR) maxLatR = maxLatR := by
      unfold clampR
      split_ifs with ha hb
      · linarith
      · linarith
      · rfl
    unfold lon_lat_to_mercator
    rw [h1, h2]
  · intro h
    have h1 : clampR lat (-maxLatR) maxLatR = -maxLatR := by
      unfold clampR
      split_ifs with ha hb
      · rfl
      · linarith
      · linarith
    have h2 : clampR (-maxLatR) (-maxLatR) maxLatR = -maxLatR := by
      unfold clampR
      split_ifs with ha hb
      · rfl
      · linarith
      · rfl
    unfold lon_lat_to_mercator
    rw [h1, h2]

/-- Witness for C4 at `(10, 90)`. -/
theorem lon_lat_to_mercator_clamps_witness :
    maxLatR ≤ 90 ∧ lon_lat_to_mercator 10 90 = lon_lat_to_mercator 10 maxLatR :=
  ⟨by norm_num [maxLatR],
   (lon_lat_to_mercator_clamps 10 90).1 (by norm_num [maxLatR])⟩

/-- **C4 counterexample.** The `src/utils/geometry.rs` forward conversion
applies no latitude clamp: at `(10, 86)` its result differs from the value
at the bound `85.05112877980659`, so the claimed equality beyond the bound
fails for that variant. -/
theorem utils_lon_lat_to_mercator_unclamped :
    utils_lon_lat_to_mercator 10 86 ≠ utils_lon_lat_to_mercator 10 maxLatR := by
  have hpi := Real.pi_pos
  have hm : maxLatR = (85.05112877980659 : ℝ) := rfl
  intro h
  have h2 : rMajor * Real.log (Real.tan (Real.pi / 4 + (86 : ℝ) * Real.pi / 180 / 2)) =
      rMajor * Real.log (Real.tan (Real.pi / 4 + maxLatR * Real.pi / 180 / 2)) := by
    simpa only [utils_lon_lat_to_mercator] using congrArg Prod.snd h
  have h12 : Real.pi / 4 + maxLatR * Real.pi / 180 / 2 <
      Real.pi / 4 + (86 : ℝ) * Real.pi / 180 / 2 := by
    rw [hm]; linarith
  have h2lt : Real.pi / 4 + (86 : ℝ) * Real.pi / 180 / 2 < Real.pi / 2 := by
    linarith
  have h1pos : 0 < Real.pi / 4 + maxLatR * Real.pi / 180 / 2 := by
    rw [hm]; linarith
  have h1gt : -(Real.pi / 2) < Real.pi / 4 + maxLatR * Real.pi / 180 / 2 := by
    linarith
  have htan := Real.tan_lt_tan_of_lt_of_lt_pi_div_two h1gt h2lt h12
  have htanpos := Real.tan_pos_of_pos_of_lt_pi_div_two h1pos (lt_trans h12 h2lt)
  have hlog := Real.log_lt_log htanpos htan
  have hR : (0 : ℝ) < rMajor := by norm_num [rMajor]
  have hy := (mul_lt_mul_left hR).mpr hlog
  linarith

/-- **C1 (amended).** A rendered pixel is fully transparent (alpha 0) if
and only if its source sample is no-data (NaN or equal to the band's
declared no-data value), provided the built-in gradient never yields alpha
0, `min_value < max_value`, and the layer's colour stops — if any — are at
least two, strictly ascending and fully opaque (alpha 255). -/
theorem renderPixel_alpha_zero_iff (grad : ℚ → RGBA) (layer : Layer)
    (nodataOpt : Option F32) (raw : F32)
    (hgrad : ∀ t, (grad t).a ≠ 0)
    (hmm : layer.min_value < layer.max_value)
    (hchain : List.Chain' (fun s t : ColourStop => s.value < t.value) layer.colour_stops)
    (halpha : ∀ s ∈ layer.colour_stops, s.alpha = 255)
    (hlen : layer.colour_stops.length ≠ 1) :
    (renderPixel grad layer nodataOpt raw).a = 0 ↔ isNodata nodataOpt raw = true := by
  cases raw with
  | nan => simp [renderPixel, isNodata, F32.isNan]
  | num v =>
    by_cases hnd : isNodata nodataOpt (F32.num v) = true
    · simp [renderPixel, hnd]
    · simp only [renderPixel, hnd, Bool.false_eq_true, if_false, iff_false]
      by_cases hb : isBuiltinPalette layer.style = true
      · simp only [hb, if_true]
        exact hgrad _
      · simp only [hb, Bool.false_eq_true, if_false]
        cases hcs : layer.colour_stops with
        | nil =>
          simp [hcs]
        | cons a tl =>
          cases tl with
          | nil => exact absurd (by rw [hcs]; rfl) hlen
          | cons b rest =>
            have hchain2 :
                List.Chain' (fun s t : ColourStop => s.value < t.value) (a :: b :: rest) := by
              rwa [hcs] at hchain
            have halpha2 : ∀ s ∈ a :: b :: rest, s.alpha = 255 := by
              intro s hs
              exact halpha s (by rw [hcs]; exact hs)
            have hL : a.value ≤ ((a :: b :: rest).getLast (List.cons_ne_nil _ _)).value :=
              chain_head_le_getLast _ _ hchain2
            have hc0 : (0 : ℚ) ≤ clampQ ((v - layer.min_value) /
                (layer.max_value - layer.min_value)) 0 1 :=
              clampQ_lower _ 0 1 (by norm_num)
            have hc1 : clampQ ((v - layer.min_value) /
                (layer.max_value - layer.min_value)) 0 1 ≤ 1 :=
              clampQ_upper _ 0 1 (by norm_num)
            simp only [hcs, List.isEmpty_cons, List.head?_cons,
              List.getLast?_eq_getLast _ (List.cons_ne_nil _ _), Option.map_some',
              Option.getD_some, Bool.false_eq_true, if_false]
            have hmul0 : (0 : ℚ) ≤ clampQ ((v - layer.min_value) /
                  (layer.max_value - layer.min_value)) 0 1 *
                (((a :: b :: rest).getLast (List.cons_ne_nil _ _)).value - a.value) :=
              mul_nonneg hc0 (sub_nonneg.mpr hL)
            have hmul1 : clampQ ((v - layer.min_value) /
                  (layer.max_value - layer.min_value)) 0 1 *
                (((a :: b :: rest).getLast (List.cons_ne_nil _ _)).value - a.value) ≤
                1 * (((a :: b :: rest).getLast (List.cons_ne_nil _ _)).value - a.value) :=
              mul_le_mul_of_nonneg_right hc1 (sub_nonneg.mpr hL)
            have h255 := findSeg_alpha_255 rest a b
              (a.value + clampQ ((v - layer.min_value) /
                  (layer.max_value - layer.min_value)) 0 1 *
                (((a :: b :: rest).getLast (List.cons_ne_nil _ _)).value - a.value))
              halpha2 hchain2 (by linarith) (by linarith)
            rw [h255]
            norm_num

/-- A layer with two colour stops both carrying alpha 0. -/
def exLayerAlphaZero : Layer :=
  { layer := "alpha0", style := "custom", path := ⟨some "custom"⟩,
    size_bytes := 0, source_geometry := ⟨4326, ⟨0, 0, 1, 1⟩⟩,
    cached_geometry := [],
    colour_stops := [⟨0, 0, 0, 0, 0⟩, ⟨100, 0, 0, 0, 0⟩],
    min_value := 0, max_value := 100, is_cog := false, last_modified := 0 }

/-- **C1 counterexample.** With stops `(0, alpha 0)` and `(100, alpha 0)`,
the in-range, non-no-data sample `50` renders fully transparent: a pixel
can have alpha 0 without its source sample being no-data. -/
theorem renderPixel_transparent_without_nodata :
    renderPixel (fun _ => ⟨0, 0, 0, 255⟩) exLayerAlphaZero none (F32.num 50)
      = ⟨0, 0, 0, 0⟩ ∧
    isNodata none (F32.num 50) = false ∧
    exLayerAlphaZero.min_value ≤ 50 ∧ (50 : ℚ) ≤ exLayerAlphaZero.max_value := by
  refine ⟨?_, rfl, by norm_num [exLayerAlphaZero], by norm_num [exLayerAlphaZero]⟩
  norm_num [renderPixel, isNodata, F32.isNan, f32Eq, isBuiltinPalette, exLayerAlphaZero,
    findSeg, lerpStop, clampQ, toU8]
  decide

/-- Witness for C1 on a concrete grayscale layer and in-range sample. -/
theorem renderPixel_alpha_zero_iff_witness :
    (renderPixel (fun _ => ⟨0, 0, 0, 255⟩) exLayerMeta none (F32.num 1)).a = 0 ↔
      isNodata none (F32.num 1) = true :=
  renderPixel_alpha_zero_iff (fun _ => ⟨0, 0, 0, 255⟩) exLayerMeta none (F32.num 1)
    (fun _ => by simp) (by norm_num [exLayerMeta]) (by simp [exLayerMeta])
    (by simp [exLayerMeta]) (by simp [exLayerMeta])

/-- A grayscale-rendered example layer whose 3857 extent is the envelope
`(0, 0, 10, 10)`. -/
def exLayerGray : Layer :=
  { layer := "g", style := "default", path := ⟨some "default"⟩,
    size_bytes := 0, source_geometry := ⟨3857, ⟨0, 0, 10, 10⟩⟩,
    cached_geometry := [], colour_stops := [], min_value := 0, max_value := 10,
    is_cog := false, last_modified := 0 }

/-- **C3.** The render path under `src/` applies no post-warp clip: at tile
`(0,0,0)`, buffer cell `(200, 10)` has its pixel centre outside the valid
data envelope `(0,0,10,10)` of `exLayerGray`, yet when the warp library
leaves the value `5.0` there the cell is colourised opaque grey
`(127,127,127,255)` instead of being overwritten with NaN and rendered
transparent. -/
theorem render_no_postclip_at_out_of_envelope_cell :
    specEnvelopeContains (0, 0, 10, 10) (specPixelCentre (tile_bounds 0 0 0) 200 10) = false ∧
    renderTile (fun _ => ⟨0, 0, 0, 255⟩) exLayerGray none (fun _ => F32.num 5) 200 10
      = ⟨127, 127, 127, 255⟩ := by
  constructor
  · norm_num [specEnvelopeContains, specPixelCentre, tile_bounds, webMercMax]
  · norm_num [renderTile, renderPixel, isNodata, F32.isNan, isBuiltinPalette, exLayerGray,
      clampQ, toU8]
    decide
